import Mathlib

/-!
Verification development for the Math_Tutor repository.

The repository is a Slack chat-bot: `src/handlers.py` routes inbound events
(plain messages, app mentions, reactions) to a conversational agent and posts
the formatted reply; `src/utils.py` formats structured tool results.

This file shallowly embeds the event-routing and formatting layer:
Python dictionaries become association lists over an inductive `Value` type,
stateful Slack-client interaction becomes an explicit trace of `Call`s, and
Python exceptions become `Except PyErr`.
-/

namespace MathTutor

/-- A Python-like value, as stored in the tool-result dictionaries that
`parse_tool_response` (src/utils.py) consumes.  Floats are modelled as
rationals (the modelled data only ever carries decimally exact floats). -/
inductive Value where
  | str (s : String)
  | int (n : Int)
  | float (q : Rat)
  | bool (b : Bool)
  | list (vs : List Value)
  | dict (entries : List (String × Value))
  | none

/-- A Python dictionary: an association list of string keys to values
(keys are unique in every dictionary the program builds; all operations
go through `List.lookup`, matching Python dict semantics). -/
abbrev PyDict := List (String × Value)

/-- Python truthiness (`bool(v)`), as used by `if not response.get(...)`,
`if response["steps"]`, and `'Yes' if complexity['stable'] else 'No'`. -/
def truthy : Value → Bool
  | .str s => !s.isEmpty
  | .int n => n != 0
  | .float q => q.num != 0
  | .bool b => b
  | .list vs => !vs.isEmpty
  | .dict d => !d.isEmpty
  | .none => false

/-- Python `d.get(k, default)`. -/
def dget (m : PyDict) (k : String) (default : Value) : Value :=
  (m.lookup k).getD default

/-- The exceptions the formatting code can raise. -/
inductive PyErr where
  | keyError (k : String)
  | typeError
  | attributeError
deriving DecidableEq, Repr

instance {ε α : Type} [DecidableEq ε] [DecidableEq α] :
    DecidableEq (Except ε α) := fun x y =>
  match x, y with
  | .ok a, .ok b =>
    if h : a = b then isTrue (by rw [h])
    else isFalse (by intro he; cases he; exact h rfl)
  | .error a, .error b =>
    if h : a = b then isTrue (by rw [h])
    else isFalse (by intro he; cases he; exact h rfl)
  | .ok _, .error _ => isFalse (by intro h; cases h)
  | .error _, .ok _ => isFalse (by intro h; cases h)

/-- Python `d[k]`: raises `KeyError` when the key is absent. -/
def getItem (m : PyDict) (k : String) : Except PyErr Value :=
  match m.lookup k with
  | some v => .ok v
  | Option.none => .error (.keyError k)

/-- Python `str(float)` for decimally exact values: integral floats print with
a trailing `.0`, other terminating decimals print their shortest exact decimal
expansion. -/
def floatStr (q : Rat) : String :=
  let sign := if q.num < 0 then "-" else ""
  let n := q.num.natAbs
  let d := q.den
  match (List.range 18).find? (fun k => decide (d ∣ 10 ^ k)) with
  | some 0 => sign ++ toString n ++ ".0"
  | some k =>
    let scaled := n * 10 ^ k / d
    let ip := scaled / 10 ^ k
    let fp := scaled % 10 ^ k
    let fs := toString fp
    sign ++ toString ip ++ "." ++ String.mk (List.replicate (k - fs.length) '0') ++ fs
  | Option.none => sign ++ toString n ++ "/" ++ toString d

/-- Python `repr(v)` (the rendering used for elements inside containers). -/
def pyRepr : Value → String
  | .str s => "\x27" ++ s ++ "\x27"
  | .int n => toString n
  | .float q => floatStr q
  | .bool b => if b then "True" else "False"
  | .none => "None"
  | .list vs =>
    "[" ++ String.intercalate ", " (vs.attach.map (fun x => pyRepr x.1)) ++ "]"
  | .dict d =>
    "\x7b" ++ String.intercalate ", "
      (d.attach.map (fun x => "\x27" ++ x.1.1 ++ "\x27: " ++ pyRepr x.1.2)) ++ "\x7d"
decreasing_by
  · have := List.sizeOf_lt_of_mem x.2; simp at this ⊢; omega
  · obtain ⟨⟨a, b⟩, hx⟩ := x
    have := List.sizeOf_lt_of_mem hx
    simp at this ⊢
    omega

/-- Python `str(v)`, as used by f-string interpolation: strings render
verbatim, scalars as themselves, containers render their elements with
`repr`. -/
def pyStr : Value → String
  | .str s => s
  | .int n => toString n
  | .float q => floatStr q
  | .bool b => if b then "True" else "False"
  | .none => "None"
  | v => pyRepr v

/-- Python iteration (`for step in steps`): lists yield elements, strings
yield their characters, dicts yield their keys; other values raise
`TypeError`. -/
def pyIter : Value → Except PyErr (List Value)
  | .list vs => .ok vs
  | .str s => .ok (s.toList.map (fun c => .str (String.mk [c])))
  | .dict d => .ok (d.map (fun kv => .str kv.1))
  | _ => .error .typeError

/-- Round a rational to the nearest integer, ties to even — the rounding
Python's fixed-point float formatting (`:.4f`) applies to the exact value.
The fractional part `x - ⌊x⌋ = (x.num - ⌊x⌋ * x.den) / x.den` is compared
with `1/2` by comparing `2 * (x.num - ⌊x⌋ * x.den)` with `x.den`. -/
def roundHalfEven (x : Rat) : Int :=
  let f := x.floor
  let r2 := 2 * (x.num - f * (x.den : Int))
  if r2 < (x.den : Int) then f
  else if (x.den : Int) < r2 then f + 1
  else if f % 2 = 0 then f else f + 1

/-- The four fractional digits of `n < 10000`, zero padded. -/
def pad4 (n : Nat) : String :=
  String.mk [Nat.digitChar (n / 1000 % 10), Nat.digitChar (n / 100 % 10),
             Nat.digitChar (n / 10 % 10), Nat.digitChar (n % 10)]

/-- Python `format(q, '.4f')`: exactly four digits after the decimal point,
half-to-even rounding, trailing zeros kept — the sign, then the magnitude
`|q|` scaled by `10^4` (as `mkRat (|q.num| * 10000) q.den = |q| * 10000`)
and rounded half-to-even, split into integer part and four fractional
digits. -/
def format4 (q : Rat) : String :=
  let sign := if q.num < 0 then "-" else ""
  let n := roundHalfEven (mkRat (q.num.natAbs * 10000) q.den)
  sign ++ toString (n / 10000) ++ "." ++ pad4 (n % 10000).toNat

/-- Apply the `:.4f` format spec to a dictionary value: numeric values
(floats, ints, bools) format as fixed-point, anything else raises. -/
def fmt4Val : Value → Except PyErr String
  | .float q => .ok (format4 q)
  | .int n => .ok (format4 (mkRat n 1))
  | .bool b => .ok (format4 (mkRat (if b then 1 else 0) 1))
  | _ => .error .typeError

/-- The `"solution" in response` branch of `parse_tool_response`
(src/utils.py lines 32-41): header with the solution, then a numbered
step list when a truthy `steps` value is present. -/
def formatSolution (m : PyDict) : Except PyErr String :=
  match getItem m "solution" with
  | .error e => .error e
  | .ok sol =>
    let base := "*Solution:* " ++ pyStr sol ++ "\n\n"
    match m.lookup "steps" with
    | some steps =>
      if truthy steps then
        match pyIter steps with
        | .error e => .error e
        | .ok items =>
          .ok (base ++ "*Step-by-step solution:*\n" ++
            String.join (items.enum.map
              (fun p => toString (p.1 + 1) ++ ". " ++ pyStr p.2 ++ "\n")))
      else .ok base
    | Option.none => .ok base

/-- The `"mean" in response` branch of `parse_tool_response`
(src/utils.py lines 43-53): the fixed statistics block.  Lookups and
formats happen in the f-string's left-to-right evaluation order. -/
def formatStats (m : PyDict) : Except PyErr String :=
  match getItem m "count" with
  | .error e => .error e
  | .ok count =>
  match getItem m "mean" with
  | .error e => .error e
  | .ok mean =>
  match fmt4Val mean with
  | .error e => .error e
  | .ok meanS =>
  match getItem m "median" with
  | .error e => .error e
  | .ok median =>
  match fmt4Val median with
  | .error e => .error e
  | .ok medianS =>
  match getItem m "std_dev" with
  | .error e => .error e
  | .ok sd =>
  match fmt4Val sd with
  | .error e => .error e
  | .ok sdS =>
  match getItem m "min" with
  | .error e => .error e
  | .ok mn =>
  match fmt4Val mn with
  | .error e => .error e
  | .ok mnS =>
  match getItem m "max" with
  | .error e => .error e
  | .ok mx =>
  match fmt4Val mx with
  | .error e => .error e
  | .ok mxS =>
  match getItem m "iqr" with
  | .error e => .error e
  | .ok iqr =>
  match fmt4Val iqr with
  | .error e => .error e
  | .ok iqrS =>
    .ok ("*Statistical Analysis:*\n• Count: " ++ pyStr count ++
         "\n• Mean: " ++ meanS ++
         "\n• Median: " ++ medianS ++
         "\n• Standard Deviation: " ++ sdS ++
         "\n• Range: " ++ mnS ++ " to " ++ mxS ++
         "\n• Interquartile Range: " ++ iqrS)

/-- The `"complexity" in response` branch of `parse_tool_response`
(src/utils.py lines 55-76).  `complexity.get("time")` requires the
`complexity` value to be a dict (`AttributeError` otherwise); the
`algorithm` lookup happens first, as in the source. -/
def formatComplexity (m : PyDict) : Except PyErr String :=
  match getItem m "complexity" with
  | .error e => .error e
  | .ok complexity =>
  match getItem m "algorithm" with
  | .error e => .error e
  | .ok alg =>
    let base := "*Algorithm:* " ++ pyStr alg ++ "\n\n"
    match complexity with
    | .dict cd =>
      let timePart : Except PyErr String :=
        match cd.lookup "time" with
        | some (.dict td) =>
          match getItem td "best" with
          | .error e => .error e
          | .ok b =>
          match getItem td "average" with
          | .error e => .error e
          | .ok a =>
          match getItem td "worst" with
          | .error e => .error e
          | .ok w =>
            .ok ("*Time Complexity:*\n• Best case: " ++ pyStr b ++
                 "\n• Average case: " ++ pyStr a ++
                 "\n• Worst case: " ++ pyStr w ++ "\n")
        | some t => .ok ("*Time Complexity:* " ++ pyStr t ++ "\n")
        | Option.none => .ok ("*Time Complexity:* Unknown\n")
      match timePart with
      | .error e => .error e
      | .ok timeS =>
        let spaceS := "*Space Complexity:* " ++
          pyStr (dget cd "space" (.str "Unknown")) ++ "\n"
        let stableS :=
          match cd.lookup "stable" with
          | some sv => "*Stable:* " ++ (if truthy sv then "Yes" else "No") ++ "\n"
          | Option.none => ""
        let descS :=
          match cd.lookup "description" with
          | some dv => "\n*Description:*\n" ++ pyStr dv
          | Option.none => ""
        .ok (base ++ timeS ++ spaceS ++ stableS ++ descS)
    | _ => .error .attributeError

/-- The function `parse_tool_response` (src/utils.py lines 19-79): dispatch on the first
structurally matching shape — failure, solution, statistics, complexity,
generic dump — in that order. -/
def parse_tool_response (m : PyDict) : Except PyErr String :=
  if !truthy (dget m "success" (.bool false)) then
    .ok ("Error: " ++ pyStr (dget m "error" (.str "Unknown error")))
  else if (m.lookup "solution").isSome then formatSolution m
  else if (m.lookup "mean").isSome then formatStats m
  else if (m.lookup "complexity").isSome then formatComplexity m
  else .ok (pyStr (.dict m))

/-! ### The event handlers (src/handlers.py) -/

/-- Boolean infix (substring) test on character lists, the semantics of both
`re.search` over an alternation of literal words and Python's `in` on
strings. -/
def isInfixB (needle : List Char) : List Char → Bool
  | [] => needle.isEmpty
  | c :: cs => needle.isPrefixOf (c :: cs) || isInfixB needle cs

/-- The alternatives of `MATH_PATTERN` (src/handlers.py lines 17-22), in the
regex's order.  Note the alternative `"big o"` is spelled with a space. -/
def MATH_KEYWORDS : List String :=
  ["math", "algorithm", "complexity", "big o", "equation", "formula",
   "calculus", "linear algebra", "statistics", "probability", "optimization",
   "function", "graph", "plot", "solve", "compute", "matrix", "vector",
   "derivative", "integral", "theorem", "proof"]

/-- ASCII case folding of one character (the folding `re.IGNORECASE` applies
to the pattern's ASCII letters). -/
def asciiLower (c : Char) : Char :=
  match c with
  | 'A' => 'a' | 'B' => 'b' | 'C' => 'c' | 'D' => 'd' | 'E' => 'e'
  | 'F' => 'f' | 'G' => 'g' | 'H' => 'h' | 'I' => 'i' | 'J' => 'j'
  | 'K' => 'k' | 'L' => 'l' | 'M' => 'm' | 'N' => 'n' | 'O' => 'o'
  | 'P' => 'p' | 'Q' => 'q' | 'R' => 'r' | 'S' => 's' | 'T' => 't'
  | 'U' => 'u' | 'V' => 'v' | 'W' => 'w' | 'X' => 'x' | 'Y' => 'y'
  | 'Z' => 'z' | c => c

/-- Case-insensitive containment of a literal keyword in a text, the meaning
of `re.search` with `re.IGNORECASE` for a literal alternative. -/
def ciContains (kw text : String) : Bool :=
  isInfixB (kw.toList.map asciiLower) (text.toList.map asciiLower)

/-- The test `MATH_PATTERN.search(text)` as a Boolean: some alternative occurs in the
text, case-insensitively. -/
def mathMatch (text : String) : Bool :=
  MATH_KEYWORDS.any (fun kw => ciContains kw text)

/-- The claim/spec wording of the keyword vocabulary, which spells the
big-O item `"big-O"` (hyphen) where the code's regex has `"big o"`. -/
def CLAIM_KEYWORDS : List String :=
  ["math", "algorithm", "complexity", "equation", "formula", "calculus",
   "statistics", "probability", "matrix", "vector", "derivative", "integral",
   "theorem", "proof", "graph", "plot", "solve", "compute", "function",
   "big-O", "linear algebra", "optimization"]

/-- Case-insensitive match against the vocabulary exactly as the claim
enumerates it. -/
def claimVocabMatch (text : String) : Bool :=
  CLAIM_KEYWORDS.any (fun kw => ciContains kw text)

/-- A character matched by the class `[A-Z0-9]` of the mention regex. -/
def mentionChar (c : Char) : Bool :=
  ('A' ≤ c && c ≤ 'Z') || ('0' ≤ c && c ≤ '9')

/-- One scan of `re.sub(r"<@[A-Z0-9]+>", "", text)`: remove every
non-overlapping leftmost match of the mention pattern.  Structured with a
fuel argument (initially the list's length, which the scan never exceeds)
so the definition reduces by evaluation. -/
def stripMentionsAux : Nat → List Char → List Char
  | 0, l => l
  | _ + 1, [] => []
  | fuel + 1, c :: cs =>
    if c = '<' then
      match cs with
      | '@' :: rest =>
        match rest.dropWhile mentionChar with
        | '>' :: tail =>
          if (rest.takeWhile mentionChar).isEmpty then
            c :: stripMentionsAux fuel cs
          else stripMentionsAux fuel tail
        | _ => c :: stripMentionsAux fuel cs
      | _ => c :: stripMentionsAux fuel cs
    else c :: stripMentionsAux fuel cs

/-- The substitution `re.sub(r"<@[A-Z0-9]+>", "", text)` on a character list. -/
def stripMentions (l : List Char) : List Char :=
  stripMentionsAux l.length l

/-- The whitespace characters Python's `str.strip()` removes. -/
def pyWs (c : Char) : Bool :=
  c = ' ' || c = '\t' || c = '\n' || c = '\x0d' || c = '\x0b' || c = '\x0c'

/-- Python `str.strip()` on a character list. -/
def pyStripL (l : List Char) : List Char :=
  ((l.dropWhile pyWs).reverse.dropWhile pyWs).reverse

/-- Python `str.strip()`. -/
def pyStrip (s : String) : String :=
  String.mk (pyStripL s.toList)

/-- The query extraction of `handle_app_mentions` (src/handlers.py line 144):
`re.sub(r"<@[A-Z0-9]+>", "", text).strip()` — every mention token is
removed, then surrounding whitespace is trimmed. -/
def extractMentionQuery (s : String) : String :=
  String.mk (pyStripL (stripMentions s.toList))

/-- Modelled from the claim wording for comparison: remove only the LEADING
mention token (if the text starts with one), then trim. -/
def claimMentionQuery (s : String) : String :=
  let l := s.toList
  let l' :=
    match l with
    | '<' :: '@' :: rest =>
      match rest.dropWhile mentionChar with
      | '>' :: tail =>
        if (rest.takeWhile mentionChar).isEmpty then l else tail
      | _ => l
    | _ => l
  String.mk (pyStripL l')

/-- The content of an `AgentResult` (`result.content`): a plain string, an
ordered list of content blocks (each block's optional string `text` field —
the SDK's `ContentBlock` types `text` as a string), or some other shape. -/
inductive AgentContent where
  | str (s : String)
  | blocks (bs : List (Option String))
  | other
deriving DecidableEq

/-- The agent's result object: its content plus the generic string rendering
`str(result)` used as fallback. -/
structure AgentResult where
  content : AgentContent
  rendered : String
deriving DecidableEq

/-- The helper `extract_text_from_result` (src/handlers.py lines 43-72): string content
verbatim; block lists contribute the `text` of each block that has one,
joined by newlines; otherwise, or when no block had a text field, the
generic rendering of the whole result. -/
def extract_text_from_result (result : AgentResult) : String :=
  match result.content with
  | .str s => s
  | .blocks bs =>
    let text_parts := bs.filterMap id
    if !text_parts.isEmpty then String.intercalate "\n" text_parts
    else result.rendered
  | .other => result.rendered

/-- One observable interaction of a handler: the Slack-client calls it
issues, plus the agent invocation.  `reactAdd` records whether the call
succeeded — the handler catches a failure and continues either way. -/
inductive Call where
  | reactAdd (channel ts name : String) (ok : Bool)
  | authTest
  | fetchHistory (channel ts : String)
  | agentInvoke (query : String)
  | postMessage (channel threadTs text : String)
deriving DecidableEq

/-- The agent as a black box: invocation either returns a result or raises
(with the exception's string rendering). -/
abbrev AgentFn := String → Except String AgentResult

/-- A `message` event payload, with the fields `handle_message_events`
destructures. -/
structure MessageEvent where
  bot_id : Option Value
  channel : String
  ts : String
  thread_ts : Option String
  text : Option String

/-- Does `event.get("bot_id")` hold a truthy value? -/
def truthyOpt : Option Value → Bool
  | some v => truthy v
  | Option.none => false

/-- The placeholder text posted instead of a response that carries a
generated image (src/handlers.py lines 113-114). -/
def imagePlaceholder : String :=
  "I\x27ve generated a plot for you, but I can\x27t display it directly in Slack. Here\x27s the textual explanation instead."

/-- The templated error reply of the message and mention handlers. -/
def errorReplyText (emsg : String) : String :=
  "I encountered an error while processing your request: " ++ emsg

/-- The text `handle_message_events` posts for a query: the agent's
extracted text, with image-bearing responses replaced by the placeholder
(src/handlers.py lines 106-114), or the templated error reply when the
agent raises (lines 122-128). -/
def responseText (agent : AgentFn) (q : String) : String :=
  match agent q with
  | .ok result =>
    let text_response := extract_text_from_result result
    if isInfixB "image_base64".toList text_response.toList then
      imagePlaceholder
    else text_response
  | .error emsg => errorReplyText emsg

/-- The handler `handle_message_events` (src/handlers.py lines 74-128) as the trace of
calls it issues: skip bot echoes; act only when `MATH_PATTERN` matches;
react (failure caught, recorded with its outcome), invoke the agent, post
`responseText` in the thread. -/
def handle_message_events (reactOk : Bool) (agent : AgentFn)
    (e : MessageEvent) : List Call :=
  if truthyOpt e.bot_id then []
  else
    let thread_ts := e.thread_ts.getD e.ts
    let user_message := e.text.getD ""
    if mathMatch user_message then
      [Call.reactAdd e.channel e.ts "brain" reactOk,
       Call.agentInvoke user_message,
       Call.postMessage e.channel thread_ts (responseText agent user_message)]
    else []

/-- An `app_mention` event payload. -/
structure MentionEvent where
  channel : String
  ts : String
  thread_ts : Option String
  text : Option String

/-- The handler `handle_app_mentions` (src/handlers.py lines 130-163) as a call trace:
strip mention tokens, invoke the agent unconditionally, post the extracted
text (no image check on this path), or the templated error reply. -/
def handle_app_mentions (agent : AgentFn) (e : MentionEvent) : List Call :=
  let thread_ts := e.thread_ts.getD e.ts
  let user_message := extractMentionQuery (e.text.getD "")
  Call.agentInvoke user_message ::
  (match agent user_message with
   | .ok result =>
     [Call.postMessage e.channel thread_ts (extract_text_from_result result)]
   | .error emsg =>
     [Call.postMessage e.channel thread_ts (errorReplyText emsg)])

/-- A `reaction_added` event payload. -/
structure ReactionEvent where
  user : Option String
  reaction : Option String
  item_channel : String
  item_ts : String

/-- A message returned by `conversations_history`. -/
structure HistoryMessage where
  text : Option String

/-- The handler `handle_reaction_added` (src/handlers.py lines 165-207) as a call trace:
`auth_test` always runs; self-reactions and non-question reactions are
ignored; otherwise one bounded history fetch, then agent invocation and a
post — any exception in the try block (history fetch or agent call) is
logged only, with no user-visible message. -/
def handle_reaction_added (selfUserId : String)
    (history : Except String (List HistoryMessage)) (agent : AgentFn)
    (e : ReactionEvent) : List Call :=
  Call.authTest ::
  (if e.user = some selfUserId then []
   else if e.reaction = some "question" || e.reaction = some "grey_question" then
     Call.fetchHistory e.item_channel e.item_ts ::
     (match history with
      | .error _ => []
      | .ok msgs =>
        match msgs with
        | m :: _ =>
          let user_message := m.text.getD ""
          Call.agentInvoke user_message ::
          (match agent user_message with
           | .ok result =>
             [Call.postMessage e.item_channel e.item_ts
                (extract_text_from_result result)]
           | .error _ => [])
        | [] => [])
   else [])

/-! ### Model of the statistics the formatter receives (src/tools.py) -/

/-- Modelled from the spec: `numpy.mean`, as used by `calculate_statistics`
(src/tools.py line 73) — the arithmetic mean (numpy is an external
black-box collaborator; its mean is the sum divided by the length). -/
def np_mean (l : List Rat) : Rat := l.sum / (l.length : Rat)

/-- Insertion into a sorted list (ascending). -/
def insertSorted (x : Rat) : List Rat → List Rat
  | [] => [x]
  | y :: ys => if x ≤ y then x :: y :: ys else y :: insertSorted x ys

/-- Insertion sort, ascending. -/
def sortQ (l : List Rat) : List Rat := l.foldr insertSorted []

/-- Modelled from the spec: `numpy.median`, as used by `calculate_statistics`
(src/tools.py line 74) — the middle element of the sorted data, or the
mean of the two middle elements for even length. -/
def np_median (l : List Rat) : Rat :=
  let s := sortQ l
  let n := l.length
  if n % 2 = 1 then s.getD (n / 2) 0
  else (s.getD (n / 2 - 1) 0 + s.getD (n / 2) 0) / 2

/-! ### Well-formedness of tool-result maps (for the totality claim) -/

/-- Values the `:.4f` format spec accepts. -/
def numericVal : Value → Bool
  | .int _ => true
  | .float _ => true
  | .bool _ => true
  | _ => false

/-- Values Python iteration accepts. -/
def iterableVal : Value → Bool
  | .list _ => true
  | .str _ => true
  | .dict _ => true
  | _ => false

/-- The key is present and its value is numeric. -/
def numericAt (m : PyDict) (k : String) : Bool :=
  match m.lookup k with
  | some v => numericVal v
  | Option.none => false

/-- The solution branch raises nothing: a present truthy `steps` value must
be iterable. -/
def solutionOk (m : PyDict) : Bool :=
  match m.lookup "steps" with
  | some st => !truthy st || iterableVal st
  | Option.none => true

/-- The statistics branch raises nothing: `count` present, the six
statistics present and numeric. -/
def statKeysOk (m : PyDict) : Bool :=
  (m.lookup "count").isSome && numericAt m "mean" && numericAt m "median" &&
  numericAt m "std_dev" && numericAt m "min" && numericAt m "max" &&
  numericAt m "iqr"

/-- The complexity branch raises nothing: `algorithm` present, the
`complexity` value itself a dict, and a dict-shaped `time` carrying all of
best/average/worst. -/
def complexityOk (m : PyDict) : Bool :=
  (m.lookup "algorithm").isSome &&
  (match m.lookup "complexity" with
   | some (.dict cd) =>
     (match cd.lookup "time" with
      | some (.dict td) =>
        (td.lookup "best").isSome && (td.lookup "average").isSome &&
        (td.lookup "worst").isSome
      | _ => true)
   | _ => false)

/-- The precondition under which `parse_tool_response` raises nothing. -/
def wellFormed (m : PyDict) : Bool :=
  !truthy (dget m "success" (.bool false)) ||
  (if (m.lookup "solution").isSome then solutionOk m
   else if (m.lookup "mean").isSome then statKeysOk m
   else if (m.lookup "complexity").isSome then complexityOk m
   else true)

/-! ### Claim theorems -/

/-- Claim C3: `extract_text_from_result` returns plain-string content verbatim
(idempotent on strings); on a block sequence it joins, by newlines and in
sequence order, the text fields of exactly the blocks that have one (so
`[⦃text:"a"⦄, ⦃other:1⦄, ⦃text:"b"⦄]` yields `"a\nb"`); and when neither
shape applies, or no block contributed a text, it falls back to the generic
string rendering of the whole result. -/
theorem claim3_extract_text :
    (∀ (r : AgentResult) (s : String),
      r.content = .str s → extract_text_from_result r = s)
    ∧ (∀ (bs : List (Option String)) (rp : String),
        (bs.filterMap id).isEmpty = false →
        extract_text_from_result ⟨.blocks bs, rp⟩ =
          String.intercalate "\n" (bs.filterMap id))
    ∧ extract_text_from_result ⟨.blocks [some "a", Option.none, some "b"], "R"⟩
        = "a\nb"
    ∧ (∀ (bs : List (Option String)) (rp : String),
        (bs.filterMap id).isEmpty = true →
        extract_text_from_result ⟨.blocks bs, rp⟩ = rp)
    ∧ (∀ rp : String, extract_text_from_result ⟨.other, rp⟩ = rp) := by
  refine ⟨?_, ?_, by decide, ?_, ?_⟩
  · intro r s h
    cases r with
    | mk c rp => cases h; rfl
  · intro bs rp h
    simp [extract_text_from_result, h]
  · intro bs rp h
    simp [extract_text_from_result, h]
  · intro rp
    rfl

/-- Witness for C3 at concrete results: string content, a block list with
texts, and a block list with no text fields. -/
theorem claim3_witness :
    extract_text_from_result ⟨.str "hello", "R"⟩ = "hello" ∧
    extract_text_from_result ⟨.blocks [some "x", some "y"], "R"⟩ = "x\ny" ∧
    extract_text_from_result ⟨.blocks [Option.none], "R"⟩ = "R" :=
  ⟨claim3_extract_text.1 ⟨.str "hello", "R"⟩ "hello" rfl,
   by
    have h := claim3_extract_text.2.1 [some "x", some "y"] "R" (by decide)
    simpa using h,
   claim3_extract_text.2.2.2.1 [Option.none] "R" (by decide)⟩

/-- Claim C4: when the `success` field is `False`, `parse_tool_response`
returns `"Error: "` followed by the `error` value (or `"Unknown error"`
when that key is absent), regardless of any other keys present; in
particular `⦃success: False, error: "bad input"⦄` formats to exactly
`"Error: bad input"` even with `solution` and `mean` keys present. -/
theorem claim4_failure_formatting :
    (∀ m : PyDict, m.lookup "success" = some (.bool false) →
      parse_tool_response m =
        .ok ("Error: " ++ (match m.lookup "error" with
          | some v => pyStr v
          | Option.none => "Unknown error")))
    ∧ parse_tool_response
        [("success", .bool false), ("error", .str "bad input"),
         ("solution", .str "s"), ("mean", .float (mkRat 5 2))] =
      .ok "Error: bad input" := by
  constructor
  · intro m h
    unfold parse_tool_response
    rw [show dget m "success" (.bool false) = .bool false by simp [dget, h]]
    cases he : m.lookup "error" with
    | some v => simp [truthy, dget, he]
    | none => simp [truthy, dget, he, pyStr]; rfl
  · decide

/-- Witness for C4: the general branch applied where `error` is absent. -/
theorem claim4_witness :
    parse_tool_response [("success", Value.bool false)] =
      .ok "Error: Unknown error" := by
  have h := claim4_failure_formatting.1 [("success", Value.bool false)] rfl
  simpa using h

/-- Claim C5: dispatch priority: a successful map that carries both a
`solution` key and a `mean` key always resolves to the solution branch
(rule 2 beats rule 3), never to the statistics block; concretely,
`⦃success: True, solution: "x = 1", mean: 2.5⦄` renders as
`"*Solution:* x = 1\n\n"`. -/
theorem claim5_solution_priority :
    (∀ m : PyDict,
      truthy (dget m "success" (.bool false)) = true →
      (m.lookup "solution").isSome = true →
      (m.lookup "mean").isSome = true →
      parse_tool_response m = formatSolution m)
    ∧ parse_tool_response
        [("success", .bool true), ("solution", .str "x = 1"),
         ("mean", .float (mkRat 5 2))] =
      .ok "*Solution:* x = 1\n\n" := by
  constructor
  · intro m hs hsol _
    unfold parse_tool_response
    simp [hs, hsol]
  · decide

/-- Witness for C5 at a concrete map carrying both keys. -/
theorem claim5_witness :
    parse_tool_response
        [("success", Value.bool true), ("solution", Value.str "s"),
         ("mean", Value.int 1)] =
      formatSolution
        [("success", Value.bool true), ("solution", Value.str "s"),
         ("mean", Value.int 1)] :=
  claim5_solution_priority.1 _ (by decide) (by decide) (by decide)

/-- Claim C1, counterexample: the claim enumerates the vocabulary with the
item `"big-O"`, but the regex alternative is `"big o"` (a space): the text
`"a big oak"` matches no keyword of the claim's vocabulary, yet
`handle_message_events` is not a no-op on it — the code's pattern finds
`"big o"` inside `"big oak"` and the handler reacts and posts. -/
theorem claim1_counterexample :
    claimVocabMatch "a big oak" = false ∧
    handle_message_events true (fun _ => .ok ⟨.str "sure", "r"⟩)
      ⟨Option.none, "C1", "1.0", Option.none, some "a big oak"⟩ ≠ [] := by
  exact ⟨by decide, by decide⟩

/-- Claim C1, amended: with the vocabulary as the code's regex spells it
(`"big o"` with a space instead of `"big-O"`): for every plain-message
event whose text does not match `MATH_PATTERN`, `handle_message_events`
performs zero calls — no reaction, no agent invocation, no post. -/
theorem claim1_amended_no_op :
    ∀ (reactOk : Bool) (agent : AgentFn) (e : MessageEvent),
      mathMatch (e.text.getD "") = false →
      handle_message_events reactOk agent e = [] := by
  intro reactOk agent e h
  unfold handle_message_events
  split
  · rfl
  · simp [h]

/-- Witness for the amended C1 at a non-matching text. -/
theorem claim1_witness :
    mathMatch "hello there" = false ∧
    handle_message_events true (fun _ => .ok ⟨.str "sure", "r"⟩)
      ⟨Option.none, "C1w", "1.0", Option.none, some "hello there"⟩ = [] :=
  ⟨by decide, claim1_amended_no_op true _ _ (by decide)⟩

/-- Claim C2: for every non-bot plain-message event whose text matches the
keyword pattern, the handler's trace is exactly one `reactAdd` call
followed (after the agent invocation) by exactly one `postMessage` in the
thread — for either outcome of the reaction call, so a reaction failure
never suppresses the post. -/
theorem claim2_react_then_post :
    ∀ (reactOk : Bool) (agent : AgentFn) (e : MessageEvent),
      truthyOpt e.bot_id = false →
      mathMatch (e.text.getD "") = true →
      handle_message_events reactOk agent e =
        [Call.reactAdd e.channel e.ts "brain" reactOk,
         Call.agentInvoke (e.text.getD ""),
         Call.postMessage e.channel (e.thread_ts.getD e.ts)
           (responseText agent (e.text.getD ""))] := by
  intro reactOk agent e hb hm
  unfold handle_message_events
  simp [hb, hm]

/-- Witness for C2 with a failing reaction call: the post still happens. -/
theorem claim2_witness :
    handle_message_events false (fun _ => .ok ⟨.str "ans", "r"⟩)
      ⟨Option.none, "C2", "2.0", some "2.t", some "solve this"⟩ =
      [Call.reactAdd "C2" "2.0" "brain" false,
       Call.agentInvoke "solve this",
       Call.postMessage "C2" "2.t" "ans"] := by
  have h := claim2_react_then_post false (fun _ => .ok ⟨.str "ans", "r"⟩)
    ⟨Option.none, "C2", "2.0", some "2.t", some "solve this"⟩
    (by decide) (by decide)
  simpa using h

/-- Claim C8, counterexample: the image-marker replacement exists only in
`handle_message_events`: on the mention path, a response containing
`image_base64` is posted verbatim, not replaced by the placeholder —
refuting "every handler path that posts an agent response". -/
theorem claim8_counterexample :
    isInfixB "image_base64".toList "result image_base64 AAAA".toList = true ∧
    handle_app_mentions (fun _ => .ok ⟨.str "result image_base64 AAAA", "r"⟩)
      ⟨"C8", "8.0", Option.none, some "plot x"⟩ =
      [Call.agentInvoke "plot x",
       Call.postMessage "C8" "8.0" "result image_base64 AAAA"] ∧
    "result image_base64 AAAA" ≠ imagePlaceholder := by
  exact ⟨by decide, by decide, by decide⟩

/-- Claim C8, amended: only `handle_message_events` replaces image-bearing
responses: on that path, whenever the extracted agent text contains the
`image_base64` marker, the posted text is exactly the explanatory
placeholder — which itself does not contain the marker, so the raw payload
is never embedded in the message this handler posts. -/
theorem claim8_amended :
    (∀ (reactOk : Bool) (agent : AgentFn) (e : MessageEvent) (r : AgentResult),
      truthyOpt e.bot_id = false →
      mathMatch (e.text.getD "") = true →
      agent (e.text.getD "") = .ok r →
      isInfixB "image_base64".toList (extract_text_from_result r).toList = true →
      handle_message_events reactOk agent e =
        [Call.reactAdd e.channel e.ts "brain" reactOk,
         Call.agentInvoke (e.text.getD ""),
         Call.postMessage e.channel (e.thread_ts.getD e.ts) imagePlaceholder])
    ∧ isInfixB "image_base64".toList imagePlaceholder.toList = false := by
  constructor
  · intro reactOk agent e r hb hm hA himg
    unfold handle_message_events
    simp [hb, hm, responseText, hA]
    intro hfalse
    simp at himg
    rw [hfalse] at himg
    cases himg
  · decide

/-- Witness for the amended C8 at an image-bearing agent response. -/
theorem claim8_witness :
    handle_message_events true
      (fun _ => .ok ⟨.str "image_base64 AAAA", "r"⟩)
      ⟨Option.none, "C8w", "8.1", Option.none, some "plot x"⟩ =
      [Call.reactAdd "C8w" "8.1" "brain" true,
       Call.agentInvoke "plot x",
       Call.postMessage "C8w" "8.1" imagePlaceholder] :=
  claim8_amended.1 true _ _ ⟨.str "image_base64 AAAA", "r"⟩
    (by decide) (by decide) rfl (by decide)

/-- Claim C9: on an agent error, `handle_message_events` and
`handle_app_mentions` post the templated error reply
(`"I encountered an error while processing your request: <message>"`) in
the same thread, whereas `handle_reaction_added` posts no message at all
when the agent fails. -/
theorem claim9_error_asymmetry :
    (∀ (reactOk : Bool) (agent : AgentFn) (e : MessageEvent) (emsg : String),
      truthyOpt e.bot_id = false →
      mathMatch (e.text.getD "") = true →
      agent (e.text.getD "") = .error emsg →
      handle_message_events reactOk agent e =
        [Call.reactAdd e.channel e.ts "brain" reactOk,
         Call.agentInvoke (e.text.getD ""),
         Call.postMessage e.channel (e.thread_ts.getD e.ts)
           (errorReplyText emsg)])
    ∧ (∀ (agent : AgentFn) (e : MentionEvent) (emsg : String),
      agent (extractMentionQuery (e.text.getD "")) = .error emsg →
      handle_app_mentions agent e =
        [Call.agentInvoke (extractMentionQuery (e.text.getD "")),
         Call.postMessage e.channel (e.thread_ts.getD e.ts)
           (errorReplyText emsg)])
    ∧ (∀ (selfId : String) (hist : Except String (List HistoryMessage))
        (agent : AgentFn) (e : ReactionEvent) (c t txt : String),
      (∀ q, (agent q).isOk = false) →
      Call.postMessage c t txt ∉ handle_reaction_added selfId hist agent e) := by
  refine ⟨?_, ?_, ?_⟩
  · intro reactOk agent e emsg hb hm hA
    unfold handle_message_events
    simp [hb, hm, responseText, hA]
  · intro agent e emsg hA
    unfold handle_app_mentions
    simp [hA]
  · intro selfId hist agent e c t txt hFail
    unfold handle_reaction_added
    split
    · simp
    · split
      · cases hist with
        | error _ => simp
        | ok msgs =>
          cases msgs with
          | nil => simp
          | cons m rest =>
            cases hA : agent (m.text.getD "") with
            | ok r => have := hFail (m.text.getD ""); rw [hA] at this; cases this
            | error _ => simp [hA]
      · simp

/-- Witness for C9: all three behaviors at concrete failing-agent inputs. -/
theorem claim9_witness :
    handle_message_events true (fun _ => .error "boom")
      ⟨Option.none, "C9a", "9.0", Option.none, some "solve it"⟩ =
      [Call.reactAdd "C9a" "9.0" "brain" true,
       Call.agentInvoke "solve it",
       Call.postMessage "C9a" "9.0"
         (errorReplyText "boom")]
    ∧ handle_app_mentions (fun _ => .error "boom")
        ⟨"C9b", "9.1", Option.none, some "hi"⟩ =
        [Call.agentInvoke "hi",
         Call.postMessage "C9b" "9.1" (errorReplyText "boom")]
    ∧ Call.postMessage "C9c" "9.2" "anything" ∉
        handle_reaction_added "UBOT" (.ok [⟨some "what is calculus"⟩])
          (fun _ => .error "boom") ⟨some "U1", some "question", "C9c", "9.2"⟩ :=
  ⟨claim9_error_asymmetry.1 true _ _ "boom" (by decide) (by decide) rfl,
   claim9_error_asymmetry.2.1 _ ⟨"C9b", "9.1", Option.none, some "hi"⟩ "boom" rfl,
   claim9_error_asymmetry.2.2 "UBOT" _ _ _ "C9c" "9.2" "anything" (fun _ => rfl)⟩

/-- A scan over text containing no `'<'` never changes it (no mention
pattern can start), for any fuel. -/
theorem stripMentionsAux_no_open :
    ∀ (fuel : Nat) (l : List Char), (∀ c ∈ l, c ≠ '<') →
      stripMentionsAux fuel l = l := by
  intro fuel
  induction fuel with
  | zero => intro l _; rfl
  | succ f ih =>
    intro l hl
    cases l with
    | nil => rfl
    | cons c cs =>
      have hc : c ≠ '<' := hl c (List.mem_cons_self c cs)
      have hcs := ih cs (fun x hx => hl x (List.mem_cons_of_mem c hx))
      simp [stripMentionsAux, hc, hcs]

/-- Dropping while a predicate holds skips a prefix all of whose elements satisfy the
predicate. -/
theorem dropWhile_append_of_all (p : Char → Bool) :
    ∀ (xs ys : List Char), (∀ c ∈ xs, p c = true) →
      List.dropWhile p (xs ++ ys) = List.dropWhile p ys := by
  intro xs
  induction xs with
  | nil => intro ys _; rfl
  | cons a as ih =>
    intro ys h
    have ha : p a = true := h a (List.mem_cons_self a as)
    simp only [List.cons_append, List.dropWhile_cons, ha, if_true]
    exact ih ys (fun c hc => h c (List.mem_cons_of_mem a hc))

/-- One step of the scan across a full mention token `<@id>`: the token is
deleted and the scan continues after it. -/
theorem stripMentionsAux_token_step (fuel : Nat) (id rest : List Char)
    (hid : id ≠ []) (hidc : ∀ c ∈ id, mentionChar c = true) :
    stripMentionsAux (fuel + 1) ('<' :: '@' :: (id ++ '>' :: rest)) =
      stripMentionsAux fuel rest := by
  have hdrop : List.dropWhile mentionChar (id ++ '>' :: rest) = '>' :: rest := by
    rw [dropWhile_append_of_all mentionChar id ('>' :: rest) hidc]
    have hgt : mentionChar '>' = false := by decide
    simp [List.dropWhile_cons, hgt]
  have htake : (List.takeWhile mentionChar (id ++ '>' :: rest)).isEmpty = false := by
    cases id with
    | nil => exact absurd rfl hid
    | cons a as =>
      have ha : mentionChar a = true := hidc a (List.mem_cons_self a as)
      simp [List.takeWhile_cons, ha]
  simp [stripMentionsAux, hdrop, htake]

/-- Claim C7, counterexample: the claim says only the leading mention token
is stripped, but the code substitutes away every mention token: on
`"<@U123ABC> ping <@U456DEF>"` the claim's reading extracts
`"ping <@U456DEF>"` while the code extracts `"ping"` — and the agent is
invoked with `"ping"`. -/
theorem claim7_counterexample :
    claimMentionQuery "<@U123ABC> ping <@U456DEF>" = "ping <@U456DEF>" ∧
    extractMentionQuery "<@U123ABC> ping <@U456DEF>" = "ping" ∧
    (handle_app_mentions (fun q => .ok ⟨.str q, q⟩)
        ⟨"C7", "7.0", Option.none, some "<@U123ABC> ping <@U456DEF>"⟩).head? =
      some (.agentInvoke "ping") := by
  exact ⟨by decide, by decide, by decide⟩

/-- Claim C7, amended: `handle_app_mentions` removes every user-mention
token (`<@[A-Z0-9]+>`) from the text and trims surrounding whitespace
before invoking the Agent: for a text that is one leading mention token
followed by mention-free rest, the query is the trimmed rest — and the
claim's concrete example extracts exactly `"solve x**2-4"`. -/
theorem claim7_amended :
    (∀ (agent : AgentFn) (e : MentionEvent) (id rest : List Char),
      e.text = some (String.mk ('<' :: '@' :: (id ++ '>' :: rest))) →
      id ≠ [] → (∀ c ∈ id, mentionChar c = true) → (∀ c ∈ rest, c ≠ '<') →
      (handle_app_mentions agent e).head? =
        some (.agentInvoke (String.mk (pyStripL rest))))
    ∧ extractMentionQuery "<@U123ABC> solve x**2-4" = "solve x**2-4" := by
  constructor
  · intro agent e id rest htext hid hidc hrest
    have hq : extractMentionQuery (e.text.getD "") = String.mk (pyStripL rest) := by
      rw [htext]
      show extractMentionQuery (String.mk ('<' :: '@' :: (id ++ '>' :: rest))) = _
      unfold extractMentionQuery stripMentions
      have hlist : (String.mk ('<' :: '@' :: (id ++ '>' :: rest))).toList =
          '<' :: '@' :: (id ++ '>' :: rest) := rfl
      rw [hlist]
      rw [show ('<' :: '@' :: (id ++ '>' :: rest)).length =
            ((id ++ '>' :: rest).length + 1) + 1 by simp]
      rw [stripMentionsAux_token_step _ id rest hid hidc]
      rw [stripMentionsAux_no_open _ rest hrest]
    unfold handle_app_mentions
    simp [hq]
  · decide

/-- Witness for the amended C7 at a concrete mention text. -/
theorem claim7_witness :
    (handle_app_mentions (fun q => .ok ⟨.str q, q⟩)
        ⟨"C7w", "7.1", Option.none,
         some (String.mk ('<' :: '@' :: (['U', '1'] ++ '>' ::
           (' ' :: "hi there".toList))))⟩).head? =
      some (.agentInvoke (String.mk (pyStripL (' ' :: "hi there".toList)))) :=
  claim7_amended.1 _ _ ['U', '1'] (' ' :: "hi there".toList) rfl
    (by decide) (by decide) (by decide)

/-- The executable `Rat.floor` agrees with the mathematical floor. -/
theorem ratFloor_eq_intFloor (x : Rat) : x.floor = ⌊x⌋ := by
  rw [Rat.floor_def', Rat.floor_def]

/-- The fractional part as an exact integer fraction. -/
theorem sub_floor_eq_div (x : Rat) :
    x - (⌊x⌋ : Rat) = ((x.num - ⌊x⌋ * (x.den : Int) : Int) : Rat) / (x.den : Rat) := by
  have hdne : ((x.den : Rat)) ≠ 0 := by
    exact_mod_cast x.den_nz
  have hxnum : (x.num : Rat) = x * (x.den : Rat) := by
    have h := Rat.num_div_den x
    rw [div_eq_iff hdne] at h
    exact h
  rw [eq_div_iff hdne]
  push_cast
  rw [hxnum]
  ring

/-- Comparing the fractional part with one half in integer arithmetic. -/
theorem frac_lt_half_iff (x : Rat) :
    (2 * (x.num - ⌊x⌋ * (x.den : Int)) < (x.den : Int)) ↔
      (x - (⌊x⌋ : Rat) < 1 / 2) := by
  have hd : (0 : Rat) < (x.den : Rat) := by exact_mod_cast x.pos
  rw [sub_floor_eq_div]
  rw [div_lt_div_iff hd (by norm_num : (0 : Rat) < 2)]
  rw [show (2 * (x.num - ⌊x⌋ * (x.den : Int)) < (x.den : Int)) ↔
      (((2 * (x.num - ⌊x⌋ * (x.den : Int)) : Int) : Rat) <
        ((x.den : Int) : Rat)) from Int.cast_lt.symm]
  push_cast
  constructor <;> intro h <;> linarith

/-- Comparing one half with the fractional part in integer arithmetic. -/
theorem half_lt_frac_iff (x : Rat) :
    ((x.den : Int) < 2 * (x.num - ⌊x⌋ * (x.den : Int))) ↔
      ((1 : Rat) / 2 < x - (⌊x⌋ : Rat)) := by
  have hd : (0 : Rat) < (x.den : Rat) := by exact_mod_cast x.pos
  rw [sub_floor_eq_div]
  rw [div_lt_div_iff (by norm_num : (0 : Rat) < 2) hd]
  rw [show ((x.den : Int) < 2 * (x.num - ⌊x⌋ * (x.den : Int))) ↔
      (((x.den : Int) : Rat) <
        ((2 * (x.num - ⌊x⌋ * (x.den : Int)) : Int) : Rat)) from Int.cast_lt.symm]
  push_cast
  constructor <;> intro h <;> linarith

/-- The integer-arithmetic rounding implements round-half-to-even: floor
when the fractional part is below one half, ceiling when above, and the
even neighbour at an exact tie. -/
theorem roundHalfEven_spec (x : Rat) :
    roundHalfEven x =
      if x - (⌊x⌋ : Rat) < 1 / 2 then ⌊x⌋
      else if (1 : Rat) / 2 < x - (⌊x⌋ : Rat) then ⌊x⌋ + 1
      else if Even ⌊x⌋ then ⌊x⌋ else ⌊x⌋ + 1 := by
  unfold roundHalfEven
  rw [ratFloor_eq_intFloor]
  by_cases h1 : x - (⌊x⌋ : Rat) < 1 / 2
  · rw [if_pos ((frac_lt_half_iff x).mpr h1), if_pos h1]
  · rw [if_neg (fun hc => h1 ((frac_lt_half_iff x).mp hc)), if_neg h1]
    by_cases h2 : (1 : Rat) / 2 < x - (⌊x⌋ : Rat)
    · rw [if_pos ((half_lt_frac_iff x).mpr h2), if_pos h2]
    · rw [if_neg (fun hc => h2 ((half_lt_frac_iff x).mp hc)), if_neg h2]
      by_cases h3 : Even ⌊x⌋
      · rw [if_pos (Int.even_iff.mp h3), if_pos h3]
      · rw [if_neg (fun hc => h3 (Int.even_iff.mpr hc)), if_neg h3]

/-- At an exact half, the rounding picks the even neighbour. -/
theorem roundHalfEven_tie (n : Int) :
    roundHalfEven ((n : Rat) + 1 / 2) = if Even n then n else n + 1 := by
  have hfl : ⌊(n : Rat) + 1 / 2⌋ = n := by
    rw [add_comm, Int.floor_add_int]
    norm_num
  rw [roundHalfEven_spec, hfl]
  have hfr : ((n : Rat) + 1 / 2) - (n : Rat) = 1 / 2 := by ring
  rw [hfr]
  rw [if_neg (lt_irrefl _), if_neg (lt_irrefl _)]

/-- Numeral bridges from field notation to `mkRat`. -/
theorem ratLit_five_halves : (5 / 2 : Rat) = mkRat 5 2 := by
  rw [Rat.mkRat_eq_div]; norm_num

theorem ratLit_one : (1 : Rat) = mkRat 1 1 := by
  rw [Rat.mkRat_eq_div]; norm_num

theorem ratLit_four : (4 : Rat) = mkRat 4 1 := by
  rw [Rat.mkRat_eq_div]; norm_num

theorem ratLit_three_halves : (3 / 2 : Rat) = mkRat 3 2 := by
  rw [Rat.mkRat_eq_div]; norm_num

/-- Concrete `:.4f` renderings used by the statistics block. -/
theorem format4_five_halves : format4 (5 / 2 : Rat) = "2.5000" := by
  rw [ratLit_five_halves]; decide

theorem format4_one : format4 (1 : Rat) = "1.0000" := by
  rw [ratLit_one]; decide

theorem format4_four : format4 (4 : Rat) = "4.0000" := by
  rw [ratLit_four]; decide

theorem format4_three_halves : format4 (3 / 2 : Rat) = "1.5000" := by
  rw [ratLit_three_halves]; decide

/-- The mean of `[1, 2, 3, 4]` is `5/2`. -/
theorem np_mean_1234 : np_mean [1, 2, 3, 4] = 5 / 2 := by
  norm_num [np_mean, List.sum_cons, List.sum_nil]

/-- The median of `[1, 2, 3, 4]` is `5/2`. -/
theorem np_median_1234 : np_median [1, 2, 3, 4] = 5 / 2 := by
  norm_num [np_median, sortQ, insertSorted, List.foldr]

/-- Claim C6: in the statistics branch every floating statistic is rendered
with exactly four digits after the decimal point using half-to-even
rounding (the implementation rounds to the floor below a half-fraction, to
the ceiling above it, and to the even neighbour at an exact tie); for the
data `[1, 2, 3, 4]` the mean and median are `5/2` and both render as
`"2.5000"`, trailing zeros kept (shown in the full block, with the six
statistics each rendered through the `:.4f` formatter). -/
theorem claim6_statistics_formatting :
    (∀ q : Rat, ∃ ip fr : String,
      format4 q = ip ++ "." ++ fr ∧ fr.length = 4)
    ∧ (∀ x : Rat, roundHalfEven x =
        if x - (⌊x⌋ : Rat) < 1 / 2 then ⌊x⌋
        else if (1 : Rat) / 2 < x - (⌊x⌋ : Rat) then ⌊x⌋ + 1
        else if Even ⌊x⌋ then ⌊x⌋ else ⌊x⌋ + 1)
    ∧ (∀ n : Int, roundHalfEven ((n : Rat) + 1 / 2) =
        if Even n then n else n + 1)
    ∧ np_mean [1, 2, 3, 4] = 5 / 2
    ∧ np_median [1, 2, 3, 4] = 5 / 2
    ∧ format4 (5 / 2 : Rat) = "2.5000"
    ∧ (∀ sd : Rat,
      parse_tool_response
        [("success", .bool true), ("count", .int 4), ("mean", .float (5 / 2)),
         ("median", .float (5 / 2)), ("std_dev", .float sd),
         ("min", .float 1), ("max", .float 4), ("iqr", .float (3 / 2))] =
      .ok ("*Statistical Analysis:*\n• Count: 4\n• Mean: 2.5000\n• Median: 2.5000\n• Standard Deviation: "
        ++ format4 sd ++
        "\n• Range: 1.0000 to 4.0000\n• Interquartile Range: 1.5000")) := by
  refine ⟨?_, roundHalfEven_spec, roundHalfEven_tie, np_mean_1234,
    np_median_1234, format4_five_halves, ?_⟩
  · intro q
    exact ⟨(if q.num < 0 then "-" else "") ++
        toString (roundHalfEven (mkRat (q.num.natAbs * 10000) q.den) / 10000),
      pad4 ((roundHalfEven (mkRat (q.num.natAbs * 10000) q.den)) % 10000).toNat,
      rfl, rfl⟩
  · intro sd
    simp [parse_tool_response, formatStats, getItem, dget, truthy, fmt4Val,
      List.lookup, format4_five_halves, format4_one, format4_four,
      format4_three_halves, pyStr]
    rw [show toString (4 : Int) = "4" from rfl]
    have hext : ∀ s t : String, s.data = t.data → s = t := fun s t h => by
      cases s; cases t; exact congrArg String.mk h
    apply hext
    simp [String.data_append]

/-- A present numeric value yields a successful `:.4f` rendering. -/
theorem numericAt_fmt (m : PyDict) (k : String) (h : numericAt m k = true) :
    ∃ v s, m.lookup k = some v ∧ fmt4Val v = Except.ok s := by
  unfold numericAt at h
  cases hv : m.lookup k with
  | none => rw [hv] at h; cases h
  | some v =>
    rw [hv] at h
    cases v with
    | int n => exact ⟨_, _, rfl, rfl⟩
    | float q => exact ⟨_, _, rfl, rfl⟩
    | bool b => exact ⟨_, _, rfl, rfl⟩
    | str s => simp [numericVal] at h
    | list l => simp [numericVal] at h
    | dict d => simp [numericVal] at h
    | none => simp [numericVal] at h

/-- Under `statKeysOk`, the statistics branch returns successfully. -/
theorem formatStats_isOk (m : PyDict) (h : statKeysOk m = true) :
    (formatStats m).isOk = true := by
  unfold statKeysOk at h
  simp only [Bool.and_eq_true] at h
  obtain ⟨⟨⟨⟨⟨⟨hcount, hmean⟩, hmed⟩, hsd⟩, hmin⟩, hmax⟩, hiqr⟩ := h
  obtain ⟨cv, hcv⟩ := Option.isSome_iff_exists.mp hcount
  obtain ⟨mv, ms, hmv, hms⟩ := numericAt_fmt m "mean" hmean
  obtain ⟨dv, ds, hdv, hds⟩ := numericAt_fmt m "median" hmed
  obtain ⟨sv, ss, hsv, hss⟩ := numericAt_fmt m "std_dev" hsd
  obtain ⟨nv, ns, hnv, hns⟩ := numericAt_fmt m "min" hmin
  obtain ⟨xv, xs, hxv, hxs⟩ := numericAt_fmt m "max" hmax
  obtain ⟨iv, is2, hiv, his⟩ := numericAt_fmt m "iqr" hiqr
  simp [formatStats, getItem, hcv, hmv, hms, hdv, hds, hsv, hss, hnv, hns,
    hxv, hxs, hiv, his, Except.isOk, Except.toBool]

/-- Under `solutionOk` and a present `solution` key, the solution branch
returns successfully. -/
theorem formatSolution_isOk (m : PyDict)
    (hsol : (m.lookup "solution").isSome = true) (h : solutionOk m = true) :
    (formatSolution m).isOk = true := by
  obtain ⟨sol, hs⟩ := Option.isSome_iff_exists.mp hsol
  unfold solutionOk at h
  cases hst : m.lookup "steps" with
  | none => simp [formatSolution, getItem, hs, hst, Except.isOk, Except.toBool]
  | some st =>
    rw [hst] at h
    by_cases htr : truthy st = true
    · simp only [htr, Bool.not_true, Bool.false_or] at h
      cases st with
      | list l => simp [formatSolution, getItem, hs, hst, htr, pyIter, Except.isOk, Except.toBool]
      | str s2 => simp [formatSolution, getItem, hs, hst, htr, pyIter, Except.isOk, Except.toBool]
      | dict d => simp [formatSolution, getItem, hs, hst, htr, pyIter, Except.isOk, Except.toBool]
      | int n => simp [iterableVal] at h
      | float q => simp [iterableVal] at h
      | bool b => simp [iterableVal] at h
      | none => simp [iterableVal] at h
    · have htr' : truthy st = false := by
        cases hb : truthy st
        · rfl
        · exact absurd hb htr
      simp [formatSolution, getItem, hs, hst, htr', Except.isOk, Except.toBool]

/-- Under `complexityOk` and a present `complexity` key, the complexity
branch returns successfully. -/
theorem formatComplexity_isOk (m : PyDict) (h : complexityOk m = true) :
    (formatComplexity m).isOk = true := by
  unfold complexityOk at h
  simp only [Bool.and_eq_true] at h
  obtain ⟨halg, hrest⟩ := h
  obtain ⟨alg, halgv⟩ := Option.isSome_iff_exists.mp halg
  cases hcv : m.lookup "complexity" with
  | none => rw [hcv] at hrest; cases hrest
  | some cval =>
    rw [hcv] at hrest
    cases cval with
    | dict cd =>
      have hrest' : (match cd.lookup "time" with
          | some (.dict td) =>
            (td.lookup "best").isSome && (td.lookup "average").isSome &&
            (td.lookup "worst").isSome
          | _ => true) = true := hrest
      clear hrest
      rename' hrest' => hrest
      cases htv : cd.lookup "time" with
      | none => simp [formatComplexity, getItem, hcv, halgv, htv, Except.isOk, Except.toBool]
      | some tv =>
        rw [htv] at hrest
        cases tv with
        | dict td =>
          simp only [Bool.and_eq_true] at hrest
          obtain ⟨⟨hbst, havg⟩, hwst⟩ := hrest
          obtain ⟨bv, hbv⟩ := Option.isSome_iff_exists.mp hbst
          obtain ⟨av, hav⟩ := Option.isSome_iff_exists.mp havg
          obtain ⟨wv, hwv⟩ := Option.isSome_iff_exists.mp hwst
          simp [formatComplexity, getItem, hcv, halgv, htv, hbv, hav, hwv, Except.isOk, Except.toBool]
        | str s => simp [formatComplexity, getItem, hcv, halgv, htv, Except.isOk, Except.toBool]
        | int n => simp [formatComplexity, getItem, hcv, halgv, htv, Except.isOk, Except.toBool]
        | float q => simp [formatComplexity, getItem, hcv, halgv, htv, Except.isOk, Except.toBool]
        | bool b => simp [formatComplexity, getItem, hcv, halgv, htv, Except.isOk, Except.toBool]
        | list l => simp [formatComplexity, getItem, hcv, halgv, htv, Except.isOk, Except.toBool]
        | none => simp [formatComplexity, getItem, hcv, halgv, htv, Except.isOk, Except.toBool]
    | str s => cases hrest
    | int n => cases hrest
    | float q => cases hrest
    | bool b => cases hrest
    | list l => cases hrest
    | none => cases hrest

/-- Item lookup succeeds exactly on present keys, with the stored value. -/
theorem getItem_ok_iff (m : PyDict) (k : String) (v : Value) :
    getItem m k = Except.ok v ↔ m.lookup k = some v := by
  unfold getItem
  cases h : m.lookup k <;> simp

/-- A successful statistics branch implies all six statistic keys were
present. -/
theorem formatStats_isOk_keys (m : PyDict)
    (h : (formatStats m).isOk = true) :
    (m.lookup "count").isSome = true ∧ (m.lookup "median").isSome = true ∧
    (m.lookup "std_dev").isSome = true ∧ (m.lookup "min").isSome = true ∧
    (m.lookup "max").isSome = true ∧ (m.lookup "iqr").isSome = true := by
  unfold formatStats at h
  repeat' split at h
  any_goals (simp only [Except.isOk, Except.toBool] at h; contradiction)
  refine ⟨?_, ?_, ?_, ?_, ?_, ?_⟩ <;>
    simp_all only [getItem_ok_iff, Option.isSome_some]

/-- A successful complexity branch implies the `algorithm` key was
present. -/
theorem formatComplexity_isOk_alg (m : PyDict)
    (h : (formatComplexity m).isOk = true) :
    (m.lookup "algorithm").isSome = true := by
  unfold formatComplexity at h
  repeat' split at h
  any_goals (simp only [Except.isOk, Except.toBool] at h; contradiction)
  all_goals simp_all only [getItem_ok_iff, Option.isSome_some]

/-- A successful complexity branch with a dict-shaped `time` implies
best/average/worst were all present. -/
theorem formatComplexity_isOk_time (m : PyDict) (cd td : PyDict)
    (h : (formatComplexity m).isOk = true)
    (hcd : m.lookup "complexity" = some (.dict cd))
    (htd : cd.lookup "time" = some (.dict td)) :
    (td.lookup "best").isSome = true ∧ (td.lookup "average").isSome = true ∧
    (td.lookup "worst").isSome = true := by
  have hcdI : getItem m "complexity" = Except.ok (Value.dict cd) := by
    simp [getItem, hcd]
  cases halg : getItem m "algorithm" with
  | error e =>
    rw [show formatComplexity m = Except.error e from by
      unfold formatComplexity; rw [hcdI]; simp [halg]] at h
    contradiction
  | ok alg =>
  cases hb : getItem td "best" with
  | error e =>
    rw [show formatComplexity m = Except.error e from by
      unfold formatComplexity; rw [hcdI]; simp [halg, htd, hb]] at h
    contradiction
  | ok bv =>
  cases ha : getItem td "average" with
  | error e =>
    rw [show formatComplexity m = Except.error e from by
      unfold formatComplexity; rw [hcdI]; simp [halg, htd, hb, ha]] at h
    contradiction
  | ok av =>
  cases hw : getItem td "worst" with
  | error e =>
    rw [show formatComplexity m = Except.error e from by
      unfold formatComplexity; rw [hcdI]; simp [halg, htd, hb, ha, hw]] at h
    contradiction
  | ok wv =>
    refine ⟨?_, ?_, ?_⟩
    · rw [(getItem_ok_iff td "best" bv).mp hb]; rfl
    · rw [(getItem_ok_iff td "average" av).mp ha]; rfl
    · rw [(getItem_ok_iff td "worst" wv).mp hw]; rfl

/-- Claim C10, counterexample: the claim's precondition (all of count,
median, std_dev, min, max, iqr present) does not prevent a raise: a map
satisfying it whose `mean` value is a string still raises (a formatting
`TypeError`, not a `KeyError`), so presence of the keys alone is not
sufficient for totality. -/
theorem claim10_counterexample :
    (List.lookup "count"
        [("success", Value.bool true), ("count", Value.int 1),
         ("mean", Value.str "oops"), ("median", Value.int 1),
         ("std_dev", Value.int 1), ("min", Value.int 1),
         ("max", Value.int 1), ("iqr", Value.int 1)]).isSome = true ∧
    (List.lookup "median"
        [("success", Value.bool true), ("count", Value.int 1),
         ("mean", Value.str "oops"), ("median", Value.int 1),
         ("std_dev", Value.int 1), ("min", Value.int 1),
         ("max", Value.int 1), ("iqr", Value.int 1)]).isSome = true ∧
    (List.lookup "std_dev"
        [("success", Value.bool true), ("count", Value.int 1),
         ("mean", Value.str "oops"), ("median", Value.int 1),
         ("std_dev", Value.int 1), ("min", Value.int 1),
         ("max", Value.int 1), ("iqr", Value.int 1)]).isSome = true ∧
    (List.lookup "min"
        [("success", Value.bool true), ("count", Value.int 1),
         ("mean", Value.str "oops"), ("median", Value.int 1),
         ("std_dev", Value.int 1), ("min", Value.int 1),
         ("max", Value.int 1), ("iqr", Value.int 1)]).isSome = true ∧
    (List.lookup "max"
        [("success", Value.bool true), ("count", Value.int 1),
         ("mean", Value.str "oops"), ("median", Value.int 1),
         ("std_dev", Value.int 1), ("min", Value.int 1),
         ("max", Value.int 1), ("iqr", Value.int 1)]).isSome = true ∧
    (List.lookup "iqr"
        [("success", Value.bool true), ("count", Value.int 1),
         ("mean", Value.str "oops"), ("median", Value.int 1),
         ("std_dev", Value.int 1), ("min", Value.int 1),
         ("max", Value.int 1), ("iqr", Value.int 1)]).isSome = true ∧
    parse_tool_response
        [("success", Value.bool true), ("count", Value.int 1),
         ("mean", Value.str "oops"), ("median", Value.int 1),
         ("std_dev", Value.int 1), ("min", Value.int 1),
         ("max", Value.int 1), ("iqr", Value.int 1)] =
      .error .typeError := by
  refine ⟨by decide, by decide, by decide, by decide, by decide, by decide,
    by decide⟩

/-- Claim C10, amended: key-presence is necessary: in the statistics branch a
successful return implies count, median, std_dev, min, max and iqr were all
present (a missing key raises `KeyError`, shown concretely), and in the
complexity branch it implies `algorithm` was present and, when the
`complexity` value is a dict whose `time` is a dict, that best, average and
worst were all present.  For sufficiency the precondition must additionally
require the six statistic values to be numeric, a truthy `steps` value to
be iterable, and the `complexity` value to be a dict (`wellFormed`); under
that strengthened precondition no branch raises. -/
theorem claim10_amended :
    (∀ m : PyDict,
      ((parse_tool_response m).isOk = true →
        truthy (dget m "success" (.bool false)) = true →
        (m.lookup "solution").isSome = false →
        (m.lookup "mean").isSome = true →
        ((m.lookup "count").isSome = true ∧
         (m.lookup "median").isSome = true ∧
         (m.lookup "std_dev").isSome = true ∧
         (m.lookup "min").isSome = true ∧
         (m.lookup "max").isSome = true ∧
         (m.lookup "iqr").isSome = true))
      ∧ ((parse_tool_response m).isOk = true →
        truthy (dget m "success" (.bool false)) = true →
        (m.lookup "solution").isSome = false →
        (m.lookup "mean").isSome = false →
        (m.lookup "complexity").isSome = true →
        ((m.lookup "algorithm").isSome = true ∧
         ∀ cd td : PyDict, m.lookup "complexity" = some (.dict cd) →
           cd.lookup "time" = some (.dict td) →
           ((td.lookup "best").isSome = true ∧
            (td.lookup "average").isSome = true ∧
            (td.lookup "worst").isSome = true)))
      ∧ (wellFormed m = true → (parse_tool_response m).isOk = true))
    ∧ parse_tool_response [("success", .bool true), ("mean", .float (mkRat 5 2))] =
        .error (.keyError "count")
    ∧ parse_tool_response
        [("success", .bool true),
         ("complexity", .dict [("time", .str "O(1)"), ("space", .str "O(1)")])] =
        .error (.keyError "algorithm") := by
  refine ⟨?_, by decide, by decide⟩
  intro m
  refine ⟨?_, ?_, ?_⟩
  · intro hok hs hsolF hmean
    have hp : parse_tool_response m = formatStats m := by
      unfold parse_tool_response
      simp [hs, hsolF, hmean]
    rw [hp] at hok
    exact formatStats_isOk_keys m hok
  · intro hok hs hsolF hmeanF hcx
    have hp : parse_tool_response m = formatComplexity m := by
      unfold parse_tool_response
      simp [hs, hsolF, hmeanF, hcx]
    rw [hp] at hok
    refine ⟨formatComplexity_isOk_alg m hok, ?_⟩
    intro cd td hcd htd
    exact formatComplexity_isOk_time m cd td hok hcd htd
  · intro hw
    unfold wellFormed at hw
    unfold parse_tool_response
    by_cases hs : truthy (dget m "success" (.bool false)) = true
    · rw [hs] at hw
      simp only [Bool.not_true, Bool.false_or] at hw
      simp only [hs, Bool.not_true, Bool.false_eq_true, if_false]
      by_cases hsol : (m.lookup "solution").isSome = true
      · rw [if_pos hsol] at hw
        simp only [hsol, if_true]
        exact formatSolution_isOk m hsol hw
      · have hsol' : (m.lookup "solution").isSome = false := by
          cases hx : (m.lookup "solution").isSome
          · rfl
          · exact absurd hx hsol
        rw [if_neg (by rw [hsol']; exact Bool.false_ne_true)] at hw
        simp only [hsol', Bool.false_eq_true, if_false]
        by_cases hmean : (m.lookup "mean").isSome = true
        · rw [if_pos hmean] at hw
          simp only [hmean, if_true]
          exact formatStats_isOk m hw
        · have hmean' : (m.lookup "mean").isSome = false := by
            cases hx : (m.lookup "mean").isSome
            · rfl
            · exact absurd hx hmean
          rw [if_neg (by rw [hmean']; exact Bool.false_ne_true)] at hw
          simp only [hmean', Bool.false_eq_true, if_false]
          by_cases hcx : (m.lookup "complexity").isSome = true
          · rw [if_pos hcx] at hw
            simp only [hcx, if_true]
            exact formatComplexity_isOk m hw
          · have hcx' : (m.lookup "complexity").isSome = false := by
              cases hx : (m.lookup "complexity").isSome
              · rfl
              · exact absurd hx hcx
            simp only [hcx', Bool.false_eq_true, if_false]
            rfl
    · have hs' : truthy (dget m "success" (.bool false)) = false := by
        cases hx : truthy (dget m "success" (.bool false))
        · rfl
        · exact absurd hx hs
      simp only [hs', Bool.not_false, if_true]
      rfl

/-- Witness for the amended C10 at a well-formed statistics map. -/
theorem claim10_witness :
    wellFormed
        [("success", Value.bool true), ("count", Value.int 4),
         ("mean", Value.float (mkRat 5 2)), ("median", Value.float (mkRat 5 2)),
         ("std_dev", Value.float (mkRat 559 500)), ("min", Value.float (mkRat 1 1)),
         ("max", Value.float (mkRat 4 1)), ("iqr", Value.float (mkRat 3 2))] = true ∧
    (parse_tool_response
        [("success", Value.bool true), ("count", Value.int 4),
         ("mean", Value.float (mkRat 5 2)), ("median", Value.float (mkRat 5 2)),
         ("std_dev", Value.float (mkRat 559 500)), ("min", Value.float (mkRat 1 1)),
         ("max", Value.float (mkRat 4 1)), ("iqr", Value.float (mkRat 3 2))]).isOk
      = true ∧
    (List.lookup "median"
        [("success", Value.bool true), ("count", Value.int 4),
         ("mean", Value.float (mkRat 5 2)), ("median", Value.float (mkRat 5 2)),
         ("std_dev", Value.float (mkRat 559 500)), ("min", Value.float (mkRat 1 1)),
         ("max", Value.float (mkRat 4 1)), ("iqr", Value.float (mkRat 3 2))]).isSome
      = true ∧
    (List.lookup "algorithm"
        [("success", Value.bool true), ("algorithm", Value.str "quick_sort"),
         ("complexity", Value.dict [("time", Value.str "O(n log n)")])]).isSome
      = true :=
  ⟨by decide, (claim10_amended.1 _).2.2 (by decide),
   ((claim10_amended.1 _).1 ((claim10_amended.1 _).2.2 (by decide)) (by decide)
      (by decide) (by decide)).2.1,
   ((claim10_amended.1 _).2.1 ((claim10_amended.1 _).2.2 (by decide)) (by decide)
      (by decide) (by decide) (by decide)).1⟩

end MathTutor
